import Mathlib

/-!
Verification of the transcript-acquisition pipeline of `src/main.py`
(sermon discussion guide generator).

Python strings are modelled as `List Char`; Python `None` results and caught
exceptions are modelled with `Option`; an uncaught exception escaping
`generate_sermon_discussion_guide_pdf` is modelled as `Except.error ()`.
External effects (the yt-dlp metadata lookup, the caption download, XML
parsing of the downloaded payload, the local file system, and the Gemini
call) are supplied as explicit environment values, so every function here is
a pure shallow embedding of the corresponding Python code path.
-/

/-- Python strings are modelled as lists of characters. -/
abbrev Str : Type := List Char

/-- The whitespace characters removed by Python `str.strip()` (ASCII range). -/
def pySpace (c : Char) : Bool :=
  c == ' ' || c == '\t' || c == '\n' || c == '\r' || c == '\x0b' || c == '\x0c'

/-- Python `s.strip()`: remove leading and trailing whitespace. -/
def pyStrip (s : Str) : Str :=
  ((s.dropWhile pySpace).reverse.dropWhile pySpace).reverse

/-- Python `sep.join(parts)`. -/
def joinWith (sep : Str) : List Str → Str
  | [] => []
  | [x] => x
  | x :: y :: xs => x ++ sep ++ joinWith sep (y :: xs)

/-- If `lit` is a prefix of `s`, return the remainder of `s`, else `none`. -/
def dropLit (lit s : Str) : Option Str :=
  if s.take lit.length = lit then some (s.drop lit.length) else none

/-- `needle` occurs as a contiguous substring of the haystack.  Used to state
claims about the regex searches of `src/main.py`. -/
def containsSub (needle : Str) : Str → Bool
  | [] => needle.isEmpty
  | c :: rest => decide ((c :: rest).take needle.length = needle) || containsSub needle rest

/-- The alternatives generated by the optional regex groups
`(?:https?:\/\/)?(?:www\.)?` in the patterns of `extract_video_id`
(src/main.py lines 41-45) and `is_youtube_url` (lines 345-348), in the
backtracking order of Python `re`. -/
def schemeWwwVariants : List Str :=
  ["https://www.".data, "https://".data, "http://www.".data, "http://".data, "www.".data, "".data]

/-- One optional prefix variant followed by the literal part of a pattern
matches at the start of `s` (pattern with no capture group). -/
def litAt (pre lit s : Str) : Bool :=
  match dropLit pre s with
  | some r => decide (r.take lit.length = lit)
  | none => false

/-- Some optional prefix variant followed by `lit` matches at the start of `s`. -/
def anyVariantAt (lit s : Str) : Bool :=
  schemeWwwVariants.any (fun pre => litAt pre lit s)

/-- `re.search` for a capture-free pattern `(?:https?:\/\/)?(?:www\.)?lit`:
try every start position from the left. -/
def searchLit (lit : Str) : Str → Bool
  | [] => anyVariantAt lit []
  | c :: rest => anyVariantAt lit (c :: rest) || searchLit lit rest

/-- src/main.py lines 343-349: `is_youtube_url` checks the two patterns
`(?:https?:\/\/)?(?:www\.)?youtube\.com` and `(?:https?:\/\/)?(?:www\.)?youtu\.be`
with `re.search`. -/
def is_youtube_url (s : Str) : Bool :=
  searchLit "youtube.com".data s || searchLit "youtu.be".data s

/-- Match one optional prefix variant, then `lit`, then the greedy capture
`([^X]+)` (at least one character not satisfying `bad`) at the start of `s`;
return the captured text. -/
def capVariantAt (pre lit : Str) (bad : Char → Bool) (s : Str) : Option Str :=
  match dropLit pre s with
  | none => none
  | some r1 =>
    match dropLit lit r1 with
    | none => none
    | some r2 =>
      let cap := r2.takeWhile (fun c => !(bad c))
      if cap = [] then none else some cap

/-- Try the optional-prefix variants in backtracking order at one start
position. -/
def capOverVariants (vars : List Str) (lit : Str) (bad : Char → Bool) (s : Str) : Option Str :=
  match vars with
  | [] => none
  | pre :: rest =>
    match capVariantAt pre lit bad s with
    | some cap => some cap
    | none => capOverVariants rest lit bad s

/-- `re.search` for a pattern `(?:https?:\/\/)?(?:www\.)?lit([^X]+)`: try every
start position from the left, returning the leftmost capture.  The literal
parts used below do not overlap themselves and are longer than every optional
prefix, so scanning start positions of the literal is equivalent to scanning
match start positions of the full pattern. -/
def searchCapture (lit : Str) (bad : Char → Bool) : Str → Option Str
  | [] => capOverVariants schemeWwwVariants lit bad []
  | c :: rest =>
    match capOverVariants schemeWwwVariants lit bad (c :: rest) with
    | some cap => some cap
    | none => searchCapture lit bad rest

/-- src/main.py lines 39-53: `extract_video_id` tries the three URL patterns
`...youtube\.com\/watch\?v=([^&]+)`, `...youtu\.be\/([^?]+)`,
`...youtube\.com\/embed\/([^?]+)` in order and returns the first capture; if
no pattern matches, the input is returned unchanged. -/
def extract_video_id (s : Str) : Str :=
  match searchCapture "youtube.com/watch?v=".data (fun c => c == '&') s with
  | some v => v
  | none =>
    match searchCapture "youtu.be/".data (fun c => c == '?') s with
    | some v => v
    | none =>
      match searchCapture "youtube.com/embed/".data (fun c => c == '?') s with
      | some v => v
      | none => s

/-- One caption track entry of the yt-dlp info dict (`ext` and `url` are the
fields read by src/main.py lines 81-83). -/
structure Caption where
  ext : Str
  url : Str
  deriving DecidableEq

/-- The caption inventory part of the yt-dlp info dict.  `subtitles` holds the
manual `en` tracks (present in the metadata yt-dlp reports, but never read by
the code); `automatic_captions` is `some caps` exactly when
`'automatic_captions' in info and 'en' in info['automatic_captions']`
(src/main.py line 77) holds, with `caps` the `en` entry. -/
structure VideoInfo where
  subtitles : Option (List Caption)
  automatic_captions : Option (List Caption)
  deriving DecidableEq

/-- One element of the parsed XML tree in document (iteration) order, with its
tag and optional text content, as seen by `root.iter(...)` / `p.text`. -/
structure XmlElem where
  tag : Str
  text : Option Str
  deriving DecidableEq

/-- The environment of one `get_youtube_transcript` call: the result of
`ydl.extract_info` (line 74; `none` models a raised exception, caught at line
109), the caption download `urllib.request.urlopen` (line 93; `none` models a
transport failure, caught at line 109), and `ET.fromstring` on the downloaded
payload (line 99; `none` models an XML parse error, caught at line 102). -/
structure RemoteEnv where
  info : Option VideoInfo
  fetch : Str → Option Str
  parseXml : Str → Option (List XmlElem)

/-- The tag of a TTML paragraph element, `'{http://www.w3.org/ns/ttml}p'`
(src/main.py line 101). -/
def ttmlP : Str := "\x7bhttp://www.w3.org/ns/ttml\x7dp".data

/-- The text a TTML paragraph element contributes: `p.text` when it is truthy
(present and non-empty), per the comprehension guard `if p.text` on line 101. -/
def ttmlSegText (el : XmlElem) : Option Str :=
  match el.text with
  | some t => if t = [] then none else some t
  | none => none

/-- src/main.py line 101: the list of text segments collected from a parsed
TTML document, in document order. -/
def ttml_texts (doc : List XmlElem) : List Str :=
  (doc.filter (fun el => decide (el.tag = ttmlP))).filterMap ttmlSegText

/-- The filter of src/main.py line 81: `cap['ext'] == 'ttml'`. -/
def hasTtmlExt (cap : Caption) : Bool :=
  decide (cap.ext = "ttml".data)

/-- src/main.py lines 76-89: the caption-track locator.  Only
`automatic_captions['en']` is consulted; among those tracks the first with
`ext == 'ttml'` is selected and its `url` returned; otherwise the lookup
fails (`None` after the corresponding message). -/
def selected_transcript_url (info : VideoInfo) : Option Str :=
  match info.automatic_captions with
  | some englishCaptions =>
    match englishCaptions.filter hasTtmlExt with
    | c :: _ => some c.url
    | [] => none
  | none => none

/-- src/main.py lines 56-111: `get_youtube_transcript`.  Every failure path
(no track, missing format, transport error, parse error, any exception)
returns `None`; on success the TTML paragraph texts are joined with a single
space (line 101). -/
def get_youtube_transcript (env : RemoteEnv) : Option Str :=
  match env.info with
  | none => none
  | some info =>
    match selected_transcript_url info with
    | none => none
    | some u =>
      match env.fetch u with
      | none => none
      | some transcript_data =>
        match env.parseXml transcript_data with
        | none => none
        | some doc => some (joinWith [' '] (ttml_texts doc))

/-- src/main.py lines 371-377: walk the line list in strides of 4
(`range(0, len(lines), 4)`); whenever at least 3 lines remain
(`i + 2 < len(lines)`), strip the 3rd line of the stride and keep it if
non-empty. -/
def transcript_lines : List Str → List Str
  | [] => []
  | [_] => []
  | [_, _] => []
  | [_, _, l3] => if pyStrip l3 = [] then [] else [pyStrip l3]
  | _ :: _ :: l3 :: _ :: rest =>
    (if pyStrip l3 = [] then [] else [pyStrip l3]) ++ transcript_lines rest

/-- src/main.py lines 352-385: `read_local_transcript`.  The argument is the
result of reading the file (`none` models a missing file or any read error,
both of which make the function return `None`); on success the retained lines
are joined with newlines (line 379). -/
def read_local_transcript (file_lines : Option (List Str)) : Option Str :=
  match file_lines with
  | none => none
  | some lines => some (joinWith ['\n'] (transcript_lines lines))

/-- A calendar date as held by Python `datetime` (only the fields this program
uses). -/
structure Date where
  year : Nat
  month : Nat
  day : Nat
  deriving DecidableEq

/-- Gregorian leap-year rule, as used by Python `datetime` validation. -/
def isLeap (y : Nat) : Bool :=
  (y % 4 == 0 && y % 100 != 0) || y % 400 == 0

/-- Number of days of month `m` of year `y`. -/
def daysInMonth (y m : Nat) : Nat :=
  if m = 2 then (if isLeap y then 29 else 28)
  else if m = 4 ∨ m = 6 ∨ m = 9 ∨ m = 11 then 30
  else 31

/-- The `datetime(year, month, day)` constructor: `none` models the
`ValueError` raised on an out-of-range date (uncaught in src/main.py). -/
def mkDatetime (y m d : Nat) : Option Date :=
  if 1 ≤ y ∧ y ≤ 9999 ∧ 1 ≤ m ∧ m ≤ 12 ∧ 1 ≤ d ∧ d ≤ daysInMonth y m then
    some ⟨y, m, d⟩
  else none

/-- Numeric value of a decimal digit character. -/
def digitVal (c : Char) : Nat := c.toNat - 48

/-- Two-digit decimal number from two digit characters. -/
def twoDig (a b : Char) : Nat := 10 * digitVal a + digitVal b

/-- The fixed-width pattern `(\d{2})\.(\d{2})\.(\d{2})` matched at the start
of `s`, returning the three captured two-digit numbers. -/
def dateAt (s : Str) : Option (Nat × Nat × Nat) :=
  match s with
  | a :: b :: c :: d :: e :: f :: g :: h :: _ =>
    if a.isDigit && b.isDigit && c == '.' && d.isDigit && e.isDigit && f == '.'
        && g.isDigit && h.isDigit then
      some (twoDig a b, twoDig d e, twoDig g h)
    else none
  | _ => none

/-- `re.search(r'(\d{2})\.(\d{2})\.(\d{2})', s)`: leftmost match
(src/main.py line 450). -/
def findDate : Str → Option (Nat × Nat × Nat)
  | [] => none
  | c :: rest =>
    match dateAt (c :: rest) with
    | some r => some r
    | none => findDate rest

/-- `os.path.basename`: the part of the path after the last separator
(both `/` and `\` separate, as on the Windows host the script targets). -/
def basename (s : Str) : Str :=
  s.foldl (fun acc c => if c = '/' ∨ c = '\\' then [] else acc ++ [c]) []

/-- `os.path.splitext(b)[0]` for a basename `b`: drop the extension starting
at the last dot, unless every character before that dot is itself a dot. -/
def splitextStem (b : Str) : Str :=
  match b.reverse.findIdx? (fun c => c == '.') with
  | none => b
  | some j =>
    let i := b.length - 1 - j
    if (b.take i).any (fun c => c != '.') then b.take i else b

/-- src/main.py lines 448-456: publish date for a local input.  The stem of
the basename of the path is searched for `MM.DD.YY`; on a match the captured
fields are bound as `month, day, year = map(int, date_match.groups())`, the
year is shifted by 2000 and `datetime(year, month, day)` is built (`none`
models its uncaught `ValueError`); with no match the current date is used. -/
def local_publish_date (input_source : Str) (now : Date) : Option Date :=
  match findDate (splitextStem (basename input_source)) with
  | some (m, d, y) => mkDatetime (y + 2000) m d
  | none => some now

/-- `datetime.strptime(s, '%Y%m%d')` (src/main.py line 435): exactly eight
digits, validated as a date; `none` models the uncaught `ValueError`. -/
def parseYYYYMMDD (s : Str) : Option Date :=
  match s with
  | [a, b, c, d, e, f, g, h] =>
    if a.isDigit && b.isDigit && c.isDigit && d.isDigit && e.isDigit && f.isDigit
        && g.isDigit && h.isDigit then
      mkDatetime (1000 * digitVal a + 100 * digitVal b + 10 * digitVal c + digitVal d)
        (twoDig e f) (twoDig g h)
    else none
  | _ => none

/-- src/main.py lines 433-437: publish date for a remote input, from the
`upload_date` metadata field when present, else the current date. -/
def remote_publish_date (upload_date : Option Str) (now : Date) : Option Date :=
  match upload_date with
  | some ds => parseYYYYMMDD ds
  | none => some now

/-- The fixed text of src/main.py lines 116-143 preceding the transcript in
the Gemini prompt. -/
def promptHeader : Str :=
  ("Based on the following sermon transcript, create a small group leader discussion guide suitable for a 20-40 minute discussion. \n\nThe guide should follow the SOAP structure (Scripture, Observation, Application, Prayer) and include the following elements:\n1. Scripture: \n    a. a brief summary of the sermon passage (focus more on summarizing the sermon\x27s passage than the sermon itself) (2-3 sentences)\n    b. Key themes and scripture references mentioned\n3. Observation:\n    a. 5-7 thoughtful discussion questions that:\n        - Help participants reflect on the sermon\x27s passage\n        - Connect the sermon and its passage to personal application\n        - Encourage deeper theological exploration\n        - Foster group conversation\n         - Aid in answering the following questions each week (but can phrase differently as needed for the particular sermon passage):\n            1. What do we learn about God? \n            2. What do we learn about humanity?\n            3. What is God inviting us to believe or obey in this passage?\n4. Application:\n    a. A practical application challenge for the week\n5. Prayer:\n    a. Suggested closing prayer points\n\nLay out the guide in a clear, easy-to-read structure that a small group leader can follow. Please do not include any reference to the AI or the tool used to generate the guide. Also do not reference the prompt itself in the guide (e.g. \"This guide is intended for a 20-40 minute discussion\", etc.)\n\nPlease note that the sermon transcript may include some announcements at the beginning and an invitation to respond at the end; focus on the main sermon content.\n\nThe output must be in Markdown format.\n\nBEGIN SERMON TRANSCRIPT.\n\n").data

/-- The fixed text of src/main.py lines 147-148 following the transcript in
the Gemini prompt. -/
def promptFooter : Str :=
  ("\n\nEND SERMON TRANSCRIPT.\nPlease provide a well-structured discussion guide.").data

/-- src/main.py lines 114-148: `create_discussion_guide_prompt` interpolates
the transcript into the fixed prompt text. -/
def create_discussion_guide_prompt (transcript : Str) : Str :=
  promptHeader ++ transcript ++ promptFooter

/-- The English month name produced by `strftime('%B')`. -/
def monthName : Nat → Str
  | 1 => "January".data
  | 2 => "February".data
  | 3 => "March".data
  | 4 => "April".data
  | 5 => "May".data
  | 6 => "June".data
  | 7 => "July".data
  | 8 => "August".data
  | 9 => "September".data
  | 10 => "October".data
  | 11 => "November".data
  | 12 => "December".data
  | _ => []

/-- Zero-padded two-digit day, as produced by `strftime('%d')`. -/
def pad2 (n : Nat) : Str :=
  if n < 10 then '0' :: Nat.toDigits 10 n else Nat.toDigits 10 n

/-- `date.strftime('%B %d, %Y')` (src/main.py lines 309 and 482). -/
def strftime_BdY (d : Date) : Str :=
  monthName d.month ++ " ".data ++ pad2 d.day ++ ", ".data ++ Nat.toDigits 10 d.year

/-- The output file name built at src/main.py line 482. -/
def output_filename_for (d : Date) : Str :=
  "Kings Church - Small Group Discussion Guide - Week of ".data ++ strftime_BdY d ++ ".pdf".data

/-- The fields of the second `ydl.extract_info` call (src/main.py
lines 429-433) that the code reads. -/
structure MetaInfo where
  title : Option Str
  upload_date : Option Str

/-- Everything one item of a batch depends on: the raw input string and the
external world it will touch.  `metaInfo = none` models an exception raised
by the metadata lookup at line 431, which no handler catches.  `localLines`
is the content of the input path read as lines (`none`: missing/unreadable).
`gemini` is the generative call of line 156 (`none`: it failed, caught at
line 164). -/
structure ItemEnv where
  input_source : Str
  remote : RemoteEnv
  metaInfo : Option MetaInfo
  localLines : Option (List Str)
  gemini : Str → Option Str
  now : Date

/-- src/main.py lines 458-487: prompt construction, the Gemini call and the
PDF export shared by both input kinds.  `export_to_pdf` catches all its own
errors, so once a guide exists the item always finishes and reports its
output file name. -/
def finishGuide (e : ItemEnv) (transcript : Str) (d : Date) : Except Unit (Option Str) :=
  match e.gemini (create_discussion_guide_prompt transcript) with
  | none => Except.ok none
  | some _ => Except.ok (some (output_filename_for d))

/-- src/main.py lines 421-437: the YouTube branch of
`generate_sermon_discussion_guide_pdf`.  A falsy transcript aborts the item
(line 424); the uncaught metadata lookup or `strptime` errors raise. -/
def processRemote (e : ItemEnv) : Except Unit (Option Str) :=
  match get_youtube_transcript e.remote with
  | none => Except.ok none
  | some transcript =>
    if transcript = [] then Except.ok none
    else
      match e.metaInfo with
      | none => Except.error ()
      | some mi =>
        match remote_publish_date mi.upload_date e.now with
        | none => Except.error ()
        | some d => finishGuide e transcript d

/-- src/main.py lines 438-456: the local-file branch of
`generate_sermon_discussion_guide_pdf`.  A falsy transcript aborts the item
(line 441); an invalid filename date raises an uncaught `ValueError`. -/
def processLocal (e : ItemEnv) : Except Unit (Option Str) :=
  match read_local_transcript e.localLines with
  | none => Except.ok none
  | some transcript =>
    if transcript = [] then Except.ok none
    else
      match local_publish_date e.input_source e.now with
      | none => Except.error ()
      | some d => finishGuide e transcript d

/-- src/main.py lines 415-487: `generate_sermon_discussion_guide_pdf`.
`Except.ok none` is an early return with no output, `Except.ok (some f)` a
produced output file name, `Except.error ()` an uncaught exception. -/
def generate_sermon_discussion_guide_pdf (e : ItemEnv) : Except Unit (Option Str) :=
  if e.input_source = [] then Except.ok none
  else if is_youtube_url e.input_source then processRemote e
  else processLocal e

/-- src/main.py lines 404-412: the batch loop of `main` processes the inputs
in order; an uncaught exception from one item propagates out of `main` and
no later item is processed. -/
def main_process_inputs : List ItemEnv → List (Except Unit (Option Str))
  | [] => []
  | e :: rest =>
    match generate_sermon_discussion_guide_pdf e with
    | Except.error u => [Except.error u]
    | Except.ok r => Except.ok r :: main_process_inputs rest

/-- The acquisition result of one item: what the transcript-acquisition stage
of its branch returns before the falsy check. -/
def acquiredTranscript (e : ItemEnv) : Option Str :=
  if is_youtube_url e.input_source then get_youtube_transcript e.remote
  else read_local_transcript e.localLines

/-- The acquisition of the item fails: the input is present but the
acquisition stage returns `None` or a falsy (empty) transcript. -/
def acquisitionFails (e : ItemEnv) : Prop :=
  e.input_source ≠ [] ∧ (acquiredTranscript e = none ∨ acquiredTranscript e = some [])

/-- A remote environment in which every external call fails. -/
def dummyRemote : RemoteEnv :=
  { info := none, fetch := fun _ => none, parseXml := fun _ => none }

/-- Batch item 1: a well-formed local transcript file with a dated name. -/
def batchEnv1 : ItemEnv :=
  { input_source := "sermon 01.02.25.txt".data
  , remote := dummyRemote
  , metaInfo := none
  , localLines := some ["00:00 - 00:10".data, "Pastor".data, "Grace and truth.".data, "".data]
  , gemini := fun _ => some "guide text".data
  , now := ⟨2026, 10, 12⟩ }

/-- Batch item 2: a YouTube URL whose metadata lookup fails, so its
acquisition fails. -/
def batchEnv2 : ItemEnv :=
  { input_source := "https://www.youtube.com/watch?v=dQw4w9WgXcQ".data
  , remote := dummyRemote
  , metaInfo := none
  , localLines := none
  , gemini := fun _ => some "guide text".data
  , now := ⟨2026, 10, 12⟩ }

/-- Batch item 3: another well-formed local transcript file. -/
def batchEnv3 : ItemEnv :=
  { input_source := "sermon 03.04.25.txt".data
  , remote := dummyRemote
  , metaInfo := none
  , localLines := some ["00:00 - 00:12".data, "Pastor".data, "He restores us.".data, "".data]
  , gemini := fun _ => some "guide text".data
  , now := ⟨2026, 10, 12⟩ }

/-- A remote environment whose caption payload parses to a TTML document with
no paragraph elements at all: every external step succeeds. -/
def emptyTtmlRemote : RemoteEnv :=
  { info := some { subtitles := none, automatic_captions := some [⟨"ttml".data, "http://cap".data⟩] }
  , fetch := fun _ => some "payload".data
  , parseXml := fun _ => some [] }

/-- An item whose remote acquisition succeeds with an empty transcript. -/
def emptySuccessItem : ItemEnv :=
  { input_source := "https://youtu.be/abc".data
  , remote := emptyTtmlRemote
  , metaInfo := none
  , localLines := none
  , gemini := fun _ => none
  , now := ⟨2026, 10, 12⟩ }

/-- A TTML document whose only paragraph text carries surrounding spaces. -/
def paddedDoc : List XmlElem := [⟨ttmlP, some " Hello ".data⟩]

/-- A TTML document with a non-paragraph element, paragraphs
`Hello`, `` (empty) and `world`, and a paragraph-tagged element outside the
TTML namespace. -/
def mixedDoc : List XmlElem :=
  [ { tag := "\x7bhttp://www.w3.org/ns/ttml\x7ddiv".data, text := none }
  , { tag := ttmlP, text := some "Hello".data }
  , { tag := ttmlP, text := some "".data }
  , { tag := "p".data, text := some "outside".data }
  , { tag := ttmlP, text := some "world".data } ]

/-- Seven well-formed 4-line records of a local transcript file. -/
def sampleRecords : List (Str × Str × Str × Str) :=
  [ ("00:00".data, "A".data, "First line.".data, "".data)
  , ("00:05".data, "A".data, "Second line.".data, "".data)
  , ("00:10".data, "A".data, "Third line.".data, "".data)
  , ("00:15".data, "A".data, "Fourth line.".data, "".data)
  , ("00:20".data, "A".data, "Fifth line.".data, "".data)
  , ("00:25".data, "A".data, "Sixth line.".data, "".data)
  , ("00:30".data, "A".data, "Seventh line.".data, "".data) ]

/-- A truncated trailing fragment of 2 lines. -/
def sampleFragment : List Str := ["00:35".data, "A".data]

/-- Flatten a list of 4-line records into the underlying line list. -/
def flattenRecords : List (Str × Str × Str × Str) → List Str
  | [] => []
  | (a, b, c, d) :: rs => a :: b :: c :: d :: flattenRecords rs

/-- A local file path whose name contains `youtube.com`. -/
def trickyLocalItem : ItemEnv :=
  { input_source := "/home/user/youtube.com notes.txt".data
  , remote := dummyRemote
  , metaInfo := none
  , localLines := some ["a".data, "b".data, "c".data, "".data]
  , gemini := fun _ => some "g".data
  , now := ⟨2026, 10, 12⟩ }

theorem dropLit_eq_some {lit s r : Str} (h : dropLit lit s = some r) :
    s.take lit.length = lit ∧ r = s.drop lit.length := by
  by_cases hc : s.take lit.length = lit
  · unfold dropLit at h
    rw [if_pos hc] at h
    exact ⟨hc, (Option.some.inj h).symm⟩
  · unfold dropLit at h
    rw [if_neg hc] at h
    exact Option.noConfusion h

theorem containsSub_of_drop (needle : Str) :
    ∀ (s : Str) (k : Nat), (s.drop k).take needle.length = needle → containsSub needle s = true
  | [], k, h => by
    rw [List.drop_nil, List.take_nil] at h
    simp [containsSub, ← h]
  | c :: rest, 0, h => by
    rw [List.drop_zero] at h
    simp [containsSub, h]
  | c :: rest, k + 1, h => by
    rw [List.drop_succ_cons] at h
    simp [containsSub, containsSub_of_drop needle rest k h]

theorem litAt_imp {pre lit s : Str} (h : litAt pre lit s = true) : containsSub lit s = true := by
  rcases hd : dropLit pre s with _ | r
  · simp [litAt, hd] at h
  · simp only [litAt, hd, decide_eq_true_eq] at h
    rcases dropLit_eq_some hd with ⟨-, hr⟩
    subst hr
    exact containsSub_of_drop lit s pre.length h

theorem searchLit_imp_containsSub (lit : Str) :
    ∀ s : Str, searchLit lit s = true → containsSub lit s = true
  | [], h => by
    simp only [searchLit, anyVariantAt, List.any_eq_true] at h
    rcases h with ⟨pre, -, hlit⟩
    exact litAt_imp hlit
  | c :: rest, h => by
    simp only [searchLit, Bool.or_eq_true] at h
    rcases h with h | h
    · simp only [anyVariantAt, List.any_eq_true] at h
      rcases h with ⟨pre, -, hlit⟩
      exact litAt_imp hlit
    · simp [containsSub, searchLit_imp_containsSub lit rest h]

theorem containsSub_imp_searchLit (lit : Str) :
    ∀ s : Str, containsSub lit s = true → searchLit lit s = true
  | [], h => by
    cases lit with
    | nil => decide
    | cons a as => simp [containsSub] at h
  | c :: rest, h => by
    simp only [containsSub, Bool.or_eq_true, decide_eq_true_eq] at h
    rcases h with h | h
    · have hlit : litAt [] lit (c :: rest) = true := by
        simp [litAt, dropLit, h]
      have hany : anyVariantAt lit (c :: rest) = true := by
        rw [anyVariantAt, List.any_eq_true]
        exact ⟨[], by decide, hlit⟩
      simp [searchLit, hany]
    · simp [searchLit, containsSub_imp_searchLit lit rest h]

theorem capVariantAt_imp {pre lit : Str} {bad : Char → Bool} {s cap : Str}
    (h : capVariantAt pre lit bad s = some cap) : containsSub lit s = true := by
  rcases h1 : dropLit pre s with _ | r1
  · simp [capVariantAt, h1] at h
  · rcases h2 : dropLit lit r1 with _ | r2
    · simp [capVariantAt, h1, h2] at h
    · rcases dropLit_eq_some h1 with ⟨-, hr1⟩
      rcases dropLit_eq_some h2 with ⟨ht, -⟩
      subst hr1
      exact containsSub_of_drop lit s pre.length ht

theorem capOverVariants_imp {lit : Str} {bad : Char → Bool} {s cap : Str} :
    ∀ vars : List Str, capOverVariants vars lit bad s = some cap → containsSub lit s = true
  | [], h => by simp [capOverVariants] at h
  | pre :: rest, h => by
    rcases hv : capVariantAt pre lit bad s with _ | c
    · simp only [capOverVariants, hv] at h
      exact capOverVariants_imp rest h
    · exact capVariantAt_imp hv

theorem searchCapture_imp {lit : Str} {bad : Char → Bool} {cap : Str} :
    ∀ s : Str, searchCapture lit bad s = some cap → containsSub lit s = true
  | [], h => by
    simp only [searchCapture] at h
    exact capOverVariants_imp schemeWwwVariants h
  | c :: rest, h => by
    rcases ha : capOverVariants schemeWwwVariants lit bad (c :: rest) with _ | v
    · simp only [searchCapture, ha] at h
      simp [containsSub, searchCapture_imp rest h]
    · exact capOverVariants_imp schemeWwwVariants ha

theorem extract_fixed_of_clean (t : Str)
    (h1 : containsSub "youtube.com/watch?v=".data t = false)
    (h2 : containsSub "youtu.be/".data t = false)
    (h3 : containsSub "youtube.com/embed/".data t = false) :
    extract_video_id t = t := by
  have e1 : searchCapture "youtube.com/watch?v=".data (fun c => c == '&') t = none := by
    rcases hs : searchCapture "youtube.com/watch?v=".data (fun c => c == '&') t with _ | v
    · rfl
    · rw [searchCapture_imp t hs] at h1
      exact Bool.noConfusion h1
  have e2 : searchCapture "youtu.be/".data (fun c => c == '?') t = none := by
    rcases hs : searchCapture "youtu.be/".data (fun c => c == '?') t with _ | v
    · rfl
    · rw [searchCapture_imp t hs] at h2
      exact Bool.noConfusion h2
  have e3 : searchCapture "youtube.com/embed/".data (fun c => c == '?') t = none := by
    rcases hs : searchCapture "youtube.com/embed/".data (fun c => c == '?') t with _ | v
    · rfl
    · rw [searchCapture_imp t hs] at h3
      exact Bool.noConfusion h3
  simp [extract_video_id, e1, e2, e3]

theorem joinWith_eq_nil_iff (sep : Str) (l : List Str) (h : ∀ x ∈ l, x ≠ []) :
    (joinWith sep l = [] ↔ l = []) := by
  cases l with
  | nil => simp [joinWith]
  | cons x xs =>
    cases xs with
    | nil => simp [joinWith, h x (by simp)]
    | cons y ys => simp [joinWith, h x (by simp)]

theorem ttml_texts_mem (doc : List XmlElem) (s : Str) (h : s ∈ ttml_texts doc) :
    s ≠ [] ∧ s ∈ doc.filterMap XmlElem.text := by
  unfold ttml_texts at h
  rw [List.mem_filterMap] at h
  rcases h with ⟨el, hel, hf⟩
  have hel' : el ∈ doc := List.mem_of_mem_filter hel
  rcases htext : el.text with _ | t
  · simp [ttmlSegText, htext] at hf
  · by_cases hte : t = []
    · simp [ttmlSegText, htext, hte] at hf
    · simp only [ttmlSegText, htext, if_neg hte] at hf
      have hts : t = s := Option.some.inj hf
      subst hts
      exact ⟨hte, List.mem_filterMap.mpr ⟨el, hel', htext⟩⟩

theorem transcript_lines_mem_ne_nil :
    ∀ (lines : List Str) (s : Str), s ∈ transcript_lines lines → s ≠ []
  | [], s, h => by simp [transcript_lines] at h
  | [_], s, h => by simp [transcript_lines] at h
  | [_, _], s, h => by simp [transcript_lines] at h
  | [_, _, l3], s, h => by
    by_cases hp : pyStrip l3 = []
    · simp [transcript_lines, hp] at h
    · simp only [transcript_lines, if_neg hp, List.mem_singleton] at h
      subst h
      exact hp
  | _ :: _ :: l3 :: _ :: rest, s, h => by
    simp only [transcript_lines, List.mem_append] at h
    rcases h with h | h
    · by_cases hp : pyStrip l3 = []
      · simp [hp] at h
      · simp only [if_neg hp, List.mem_singleton] at h
        subst h
        exact hp
    · exact transcript_lines_mem_ne_nil rest s h

theorem filterMap_mono_sublist {α β : Type} (f g : α → Option β)
    (h : ∀ a b, f a = some b → g a = some b) :
    ∀ l : List α, (l.filterMap f).Sublist (l.filterMap g)
  | [] => List.Sublist.slnil
  | a :: l => by
    rw [List.filterMap_cons, List.filterMap_cons]
    rcases hf : f a with _ | b
    · rcases hg : g a with _ | c
      · exact filterMap_mono_sublist f g h l
      · exact List.Sublist.cons c (filterMap_mono_sublist f g h l)
    · rw [h a b hf]
      exact List.Sublist.cons₂ b (filterMap_mono_sublist f g h l)

theorem acquisition_empty_ok_none (e : ItemEnv)
    (h : acquiredTranscript e = none ∨ acquiredTranscript e = some []) :
    generate_sermon_discussion_guide_pdf e = Except.ok none := by
  by_cases h0 : e.input_source = []
  · simp [generate_sermon_discussion_guide_pdf, h0]
  · cases hyt : is_youtube_url e.input_source with
    | false =>
      have hl : read_local_transcript e.localLines = none ∨
          read_local_transcript e.localLines = some [] := by
        simpa [acquiredTranscript, hyt] using h
      rcases hl with hl | hl
      · simp [generate_sermon_discussion_guide_pdf, h0, hyt, processLocal, hl]
      · simp [generate_sermon_discussion_guide_pdf, h0, hyt, processLocal, hl]
    | true =>
      have hr : get_youtube_transcript e.remote = none ∨
          get_youtube_transcript e.remote = some [] := by
        simpa [acquiredTranscript, hyt] using h
      rcases hr with hr | hr
      · simp [generate_sermon_discussion_guide_pdf, h0, hyt, processRemote, hr]
      · simp [generate_sermon_discussion_guide_pdf, h0, hyt, processRemote, hr]

/-- Claim C1: within one batch, items are processed sequentially and the
failure of one item to acquire its transcript does not abort the remaining
items: the failed item yields `ok none` (no transcript, no output) and every
other item still produces exactly the output of its own environment.  The
acquisition stage catches all its exceptions, so an acquisition failure is an
early return, never an uncaught exception. -/
theorem c1_batch_isolation (e1 e2 e3 : ItemEnv) (f1 f3 : Str)
    (h1 : generate_sermon_discussion_guide_pdf e1 = Except.ok (some f1))
    (h2 : acquisitionFails e2)
    (h3 : generate_sermon_discussion_guide_pdf e3 = Except.ok (some f3)) :
    main_process_inputs [e1, e2, e3] =
      [Except.ok (some f1), Except.ok none, Except.ok (some f3)] := by
  have h2' : generate_sermon_discussion_guide_pdf e2 = Except.ok none :=
    acquisition_empty_ok_none e2 h2.2
  simp [main_process_inputs, h1, h2', h3]

/-- Claim C1, witness: a concrete batch of three items in which item 2 fails
acquisition while items 1 and 3 produce their output files. -/
theorem c1_batch_isolation_witness :
    main_process_inputs [batchEnv1, batchEnv2, batchEnv3] =
      [Except.ok (some (output_filename_for ⟨2025, 1, 2⟩)), Except.ok none,
       Except.ok (some (output_filename_for ⟨2025, 3, 4⟩))] :=
  c1_batch_isolation batchEnv1 batchEnv2 batchEnv3
    (output_filename_for ⟨2025, 1, 2⟩) (output_filename_for ⟨2025, 3, 4⟩)
    rfl ⟨by decide, Or.inl rfl⟩ rfl

/-- Claim C2, counterexample: an inventory that reports a manual English
track (in the `subtitles` field yt-dlp provides) but no automatic captions.
The claim says the locator selects the manual track; the code never reads
`subtitles` and the lookup fails with `none`. -/
theorem c2_counterexample :
    (VideoInfo.mk (some [⟨"ttml".data, "http://manual".data⟩]) none).subtitles =
      some [⟨"ttml".data, "http://manual".data⟩] ∧
    selected_transcript_url (VideoInfo.mk (some [⟨"ttml".data, "http://manual".data⟩]) none) =
      none := by
  decide

/-- Claim C2 as amended: the locator never consults manual tracks; whatever
the manual inventory is, selection depends only on the auto-generated English
captions, picking the first one whose format is `ttml`. -/
theorem c2_manual_ignored (subs : Option (List Caption)) (caps : List Caption)
    (c : Caption) (rest : List Caption)
    (h : caps.filter hasTtmlExt = c :: rest) :
    selected_transcript_url ⟨subs, some caps⟩ = some c.url := by
  simp only [selected_transcript_url, h]

/-- Claim C2 as amended, witness: with both a manual English ttml track and
an auto-generated ttml track present, the auto-generated URL is selected. -/
theorem c2_manual_ignored_witness :
    selected_transcript_url
        ⟨some [⟨"ttml".data, "http://manual".data⟩], some [⟨"ttml".data, "http://auto".data⟩]⟩ =
      some ("http://auto".data) :=
  c2_manual_ignored (some [⟨"ttml".data, "http://manual".data⟩])
    [⟨"ttml".data, "http://auto".data⟩] ⟨"ttml".data, "http://auto".data⟩ [] (by decide)

/-- Claim C3, counterexample: acquisition can report success with an empty
joined transcript.  In `emptyTtmlRemote` every external step succeeds and the
TTML document simply has no paragraph with text, so `get_youtube_transcript`
returns `some ""` (and prints its success message) even though the segment
sequence and the joined text are empty. -/
theorem c3_counterexample :
    ¬ (∀ (env : RemoteEnv) (t : Str), get_youtube_transcript env = some t → t ≠ []) :=
  fun hclaim => (hclaim emptyTtmlRemote [] rfl) rfl

/-- Claim C3 as amended: acquisition success does not by itself guarantee a
non-empty result; instead, for both acquirers the joined text is empty
exactly when the decoded segment sequence is empty, and an empty success is
rejected by the caller (the falsy check), so the item yields no guide. -/
theorem c3_empty_success (doc : List XmlElem) (lines : List Str) (e : ItemEnv)
    (hsucc : acquiredTranscript e = some []) :
    (joinWith [' '] (ttml_texts doc) = [] ↔ ttml_texts doc = []) ∧
    (joinWith ['\n'] (transcript_lines lines) = [] ↔ transcript_lines lines = []) ∧
    generate_sermon_discussion_guide_pdf e = Except.ok none := by
  refine ⟨?_, ?_, acquisition_empty_ok_none e (Or.inr hsucc)⟩
  · exact joinWith_eq_nil_iff [' '] (ttml_texts doc) (fun x hx => (ttml_texts_mem doc x hx).1)
  · exact joinWith_eq_nil_iff ['\n'] (transcript_lines lines)
      (fun x hx => transcript_lines_mem_ne_nil lines x hx)

/-- Claim C3 as amended, witness: an item whose remote acquisition succeeds
with the empty transcript produces no guide, and on the empty document and
the empty line list both equivalences are concrete. -/
theorem c3_empty_success_witness :
    (joinWith [' '] (ttml_texts []) = [] ↔ ttml_texts ([] : List XmlElem) = []) ∧
    (joinWith ['\n'] (transcript_lines []) = [] ↔ transcript_lines ([] : List Str) = []) ∧
    generate_sermon_discussion_guide_pdf emptySuccessItem = Except.ok none :=
  c3_empty_success [] [] emptySuccessItem rfl

/-- Claim C4: the ttml decoder collects the text of every paragraph element
tagged in the TTML namespace, in document order (its output is a sublist of
the element texts in document order), skipping elements whose text is empty
or absent; on a document with paragraphs `Hello`, `` and `world` it returns
exactly `Hello`, `world` in that order. -/
theorem c4_ttml_decode :
    (∀ doc : List XmlElem, (ttml_texts doc).Sublist (doc.filterMap XmlElem.text)) ∧
    ttml_texts mixedDoc = ["Hello".data, "world".data] := by
  constructor
  · intro doc
    have hmono : ∀ el s, ttmlSegText el = some s → XmlElem.text el = some s := by
      intro el s hf
      rcases ht : el.text with _ | t
      · simp [ttmlSegText, ht] at hf
      · by_cases hte : t = []
        · simp [ttmlSegText, ht, hte] at hf
        · simp only [ttmlSegText, ht, if_neg hte] at hf
          exact hf
    exact ((List.filter_sublist doc).filterMap ttmlSegText).trans
      (filterMap_mono_sublist ttmlSegText XmlElem.text hmono doc)
  · decide

/-- Claim C5, counterexample: a paragraph whose text is ` Hello ` is emitted
verbatim, with its leading and trailing spaces, so decoder output segments
are not trimmed. -/
theorem c5_counterexample :
    ttml_texts paddedDoc = [" Hello ".data] ∧ pyStrip " Hello ".data ≠ " Hello ".data := by
  decide

/-- Claim C5 as amended: every segment of the ttml decoder output is
non-empty, but it is taken verbatim from the payload (it is one of the
element texts, not a trimmed copy), so it may carry surrounding whitespace. -/
theorem c5_segments_verbatim (doc : List XmlElem) (s : Str) (h : s ∈ ttml_texts doc) :
    s ≠ [] ∧ s ∈ doc.filterMap XmlElem.text :=
  ttml_texts_mem doc s h

/-- Claim C5 as amended, witness: the padded segment is non-empty and appears
verbatim among the document texts. -/
theorem c5_segments_verbatim_witness :
    " Hello ".data ≠ [] ∧ " Hello ".data ∈ paddedDoc.filterMap XmlElem.text :=
  c5_segments_verbatim paddedDoc " Hello ".data (by decide)

/-- Claim C6, counterexample: `extract_video_id` is not idempotent.  On
`youtube.com/watch?v=youtu.be/abc` the first pattern captures
`youtu.be/abc`, and a second application captures `abc` from it. -/
theorem c6_counterexample :
    extract_video_id (extract_video_id "youtube.com/watch?v=youtu.be/abc".data) ≠
      extract_video_id "youtube.com/watch?v=youtu.be/abc".data := by
  decide

/-- Claim C6 as amended: `extract_video_id` is a pure total function, but it
is a fixed point on its own output only when that output contains none of the
three URL pattern literals; in that case a second application returns the
same value. -/
theorem c6_idempotent_on_clean (s : Str)
    (h1 : containsSub "youtube.com/watch?v=".data (extract_video_id s) = false)
    (h2 : containsSub "youtu.be/".data (extract_video_id s) = false)
    (h3 : containsSub "youtube.com/embed/".data (extract_video_id s) = false) :
    extract_video_id (extract_video_id s) = extract_video_id s :=
  extract_fixed_of_clean (extract_video_id s) h1 h2 h3

/-- Claim C6 as amended, witness: on an ordinary share URL the extracted id
is clean and a second application is the identity. -/
theorem c6_idempotent_on_clean_witness :
    extract_video_id (extract_video_id "https://youtu.be/dQw4w9WgXcQ".data) =
      extract_video_id "https://youtu.be/dQw4w9WgXcQ".data :=
  c6_idempotent_on_clean "https://youtu.be/dQw4w9WgXcQ".data (by decide) (by decide) (by decide)

/-- Claim C7: when the inventory has auto-generated English captions but none
of them is in the preferred `ttml` format, the locator selects nothing and
the whole acquisition returns the failure value — for every possible download
and parse behaviour, i.e. no other available format is fetched, and no
exception escapes (the function returns `none`). -/
theorem c7_preferred_format_missing (subs : Option (List Caption)) (caps : List Caption)
    (fetch : Str → Option Str) (parseXml : Str → Option (List XmlElem))
    (hne : caps ≠ []) (hformat : caps.filter hasTtmlExt = []) :
    selected_transcript_url ⟨subs, some caps⟩ = none ∧
    get_youtube_transcript ⟨some ⟨subs, some caps⟩, fetch, parseXml⟩ = none := by
  have hsel : selected_transcript_url ⟨subs, some caps⟩ = none := by
    simp only [selected_transcript_url, hformat]
  exact ⟨hsel, by simp only [get_youtube_transcript, hsel]⟩

/-- Claim C7, witness: an inventory offering only a `vtt` auto caption is a
track-not-found failure even though another format is available. -/
theorem c7_preferred_format_missing_witness :
    selected_transcript_url ⟨none, some [⟨"vtt".data, "http://a".data⟩]⟩ = none ∧
    get_youtube_transcript
        ⟨some ⟨none, some [⟨"vtt".data, "http://a".data⟩]⟩, fun _ => none, fun _ => none⟩ =
      none :=
  c7_preferred_format_missing none [⟨"vtt".data, "http://a".data⟩]
    (fun _ => none) (fun _ => none) (by decide) (by decide)

/-- Claim C8: the local reader walks the line list in strides of 4 and keeps
the trimmed non-empty 3rd line of every stride that has at least 3 lines:
for any list of 4-line records followed by a trailing fragment of at most 2
lines, the output is exactly the trimmed non-empty record texts in order,
and the fragment is silently dropped. -/
theorem c8_stride_parse (rs : List (Str × Str × Str × Str)) (frag : List Str)
    (hfrag : frag.length ≤ 2) :
    transcript_lines (flattenRecords rs ++ frag) =
      rs.filterMap (fun r => if pyStrip r.2.2.1 = [] then none else some (pyStrip r.2.2.1)) := by
  induction rs with
  | nil =>
    simp only [flattenRecords, List.nil_append, List.filterMap_nil]
    rcases frag with _ | ⟨a, _ | ⟨b, _ | ⟨c, t⟩⟩⟩
    · rfl
    · rfl
    · rfl
    · simp at hfrag
  | cons r rs ih =>
    rcases r with ⟨a, b, c, d⟩
    simp only [flattenRecords, List.cons_append, transcript_lines, List.filterMap_cons]
    rw [List.append_eq, ih]
    by_cases hp : pyStrip c = []
    · simp [hp]
    · simp [hp]

/-- Claim C8, witness: a file of 7 well-formed 4-line records followed by a
2-line trailing fragment yields exactly the 7 text lines in original order. -/
theorem c8_stride_parse_witness :
    transcript_lines (flattenRecords sampleRecords ++ sampleFragment) =
      ["First line.".data, "Second line.".data, "Third line.".data, "Fourth line.".data,
       "Fifth line.".data, "Sixth line.".data, "Seventh line.".data] :=
  (c8_stride_parse sampleRecords sampleFragment (by decide)).trans (by decide)

/-- Claim C9, counterexample: for the filename `guide 01.02.25.txt` the code
produces January 2, 2025 — the first two-digit field is bound to the month
and the second to the day (`month, day, year = ...` at src/main.py line 452)
— whereas reading the fields as day, month, year would give February 1,
2025. -/
theorem c9_counterexample :
    local_publish_date "guide 01.02.25.txt".data ⟨2026, 10, 12⟩ = some ⟨2025, 1, 2⟩ ∧
    (⟨2025, 1, 2⟩ : Date) ≠ ⟨2025, 2, 1⟩ := by
  decide

/-- Claim C9 as amended: when the stem of the local filename contains an
`MM.DD.YY` pattern, the three two-digit fields are interpreted as month, day
and year in that order, with century offset +2000 on the year; when no such
pattern is found, the current date is used. -/
theorem c9_filename_date (input_source : Str) (now : Date) :
    (∀ m d y dt, findDate (splitextStem (basename input_source)) = some (m, d, y) →
      local_publish_date input_source now = some dt →
      dt.year = y + 2000 ∧ dt.month = m ∧ dt.day = d) ∧
    (findDate (splitextStem (basename input_source)) = none →
      local_publish_date input_source now = some now) := by
  constructor
  · intro m d y dt hfind hdate
    simp only [local_publish_date, hfind, mkDatetime] at hdate
    by_cases hv : 1 ≤ y + 2000 ∧ y + 2000 ≤ 9999 ∧ 1 ≤ m ∧ m ≤ 12 ∧ 1 ≤ d ∧
        d ≤ daysInMonth (y + 2000) m
    · rw [if_pos hv] at hdate
      cases Option.some.inj hdate
      exact ⟨rfl, rfl, rfl⟩
    · rw [if_neg hv] at hdate
      exact Option.noConfusion hdate
  · intro hnone
    simp only [local_publish_date, hnone]

/-- Claim C9 as amended, witness: `Sermon 09.14.25.txt` yields September 14,
2025 (month 09, day 14, year 25 + 2000). -/
theorem c9_filename_date_witness :
    (Date.mk 2025 9 14).year = 25 + 2000 ∧ (Date.mk 2025 9 14).month = 9 ∧
      (Date.mk 2025 9 14).day = 14 :=
  (c9_filename_date "Sermon 09.14.25.txt".data ⟨2026, 10, 12⟩).1 9 14 25 ⟨2025, 9, 14⟩
    (by decide) (by decide)

/-- Claim C10: an input string is routed to the remote (YouTube) path exactly
when it contains `youtube.com` or `youtu.be` as a substring (the optional
scheme and `www.` prefixes of the patterns are optional, so they do not
restrict the match), and consequently any input containing such a substring —
including a local file path — is handed to the remote branch, never to the
local file reader. -/
theorem c10_routing (e : ItemEnv) :
    (is_youtube_url e.input_source = true ↔
      (containsSub "youtube.com".data e.input_source = true ∨
       containsSub "youtu.be".data e.input_source = true)) ∧
    ((containsSub "youtube.com".data e.input_source = true ∨
      containsSub "youtu.be".data e.input_source = true) →
      generate_sermon_discussion_guide_pdf e = processRemote e) := by
  have hiff : is_youtube_url e.input_source = true ↔
      (containsSub "youtube.com".data e.input_source = true ∨
       containsSub "youtu.be".data e.input_source = true) := by
    constructor
    · intro h
      rw [is_youtube_url, Bool.or_eq_true] at h
      exact h.imp (searchLit_imp_containsSub _ _) (searchLit_imp_containsSub _ _)
    · intro h
      rw [is_youtube_url, Bool.or_eq_true]
      exact h.imp (containsSub_imp_searchLit _ _) (containsSub_imp_searchLit _ _)
  refine ⟨hiff, fun h => ?_⟩
  have hne : ¬ (e.input_source = []) := by
    intro h0
    rw [h0] at h
    rcases h with h | h
    · exact absurd h (by decide)
    · exact absurd h (by decide)
  have hy : is_youtube_url e.input_source = true := hiff.mpr h
  simp [generate_sermon_discussion_guide_pdf, hne, hy]

/-- Claim C10, witness: a local file path whose name contains `youtube.com`
is classified as a YouTube URL and processed by the remote branch. -/
theorem c10_routing_witness :
    is_youtube_url "/home/user/youtube.com notes.txt".data = true ∧
    generate_sermon_discussion_guide_pdf trickyLocalItem = processRemote trickyLocalItem :=
  ⟨(c10_routing trickyLocalItem).1.mpr (Or.inl (by decide)),
   (c10_routing trickyLocalItem).2 (Or.inl (by decide))⟩
